import Mathlib

/-!
Verification of the route-optimization core of the `syncnox-be` repository
(`app/services/route_optimizer.py` and the request boundary in
`app/api/v1/endpoints/optimization.py`), as a shallow embedding in Lean 4.

Conventions of the embedding:
* A geographic coordinate is represented as a pair of `Int` micro-degrees,
  i.e. exactly the 6-decimal-place precision at which the Python code formats
  coordinates into cache keys (`f"\x7blat:.6f\x7d,\x7blon:.6f\x7d"`).
* Python `None` becomes `Option.none`; exceptions become `Except.error` carrying
  a `PyError`; mutable state (the matrix cache of the `RouteOptimizer` object)
  is threaded explicitly as a `CacheState` value.
* The two external collaborators are abstracted as oracle arguments: the matrix
  provider (GraphHopper client) as a `ProviderOutcome` and the OR-Tools solver
  as a `SolverOutcome` (per-vehicle visit paths plus solver cumulative times).
* Numeric matrix entries are embedded as `Int`.
-/

/-- Geographic location in integer micro-degrees `(lat, lng)`:
the 6-decimal-place precision used by `RouteOptimizer._get_cache_key`. -/
abbrev Loc := Int × Int

/-- The pair of matrices returned by the matrix provider
(`\x7b'distances': ..., 'times': ...\x7d` in `_get_matrices`). -/
structure Matrices where
  distances : List (List Int)
  times : List (List Int)
  deriving DecidableEq, Repr

/-- Embeds the Python exceptions that `optimize_routes` and its helpers raise. -/
inductive PyError where
  /-- Python `ValueError` -/
  | valueError (msg : String)
  /-- `RouteOptimizationError` from `route_optimizer.py` -/
  | routeOptimizationError (msg : String)
  /-- `GraphHopperClientError` from the provider client -/
  | graphHopperClientError (msg : String)
  deriving DecidableEq, Repr

/-- Message of an embedded Python exception (`str(e)`). -/
def PyError.msg : PyError → String
  | .valueError m => m
  | .routeOptimizationError m => m
  | .graphHopperClientError m => m

/-- Outcome of one call to the external matrix provider
(`GraphHopperClient.get_distance_matrix`): a successful response, a
`GraphHopperClientError`, or some other unexpected exception. -/
inductive ProviderOutcome where
  | ok (m : Matrices)
  | ghError (msg : String)
  | exn (msg : String)
  deriving DecidableEq, Repr

/-- Outcome of `routing.SolveWithParameters`: no assignment found, an
assignment (per-vehicle visited node sequence from start to end, plus the
solver's cumulative time value at each visited position), or an exception
raised while building/solving the model. -/
inductive SolverOutcome where
  | noSolution
  | solution (paths : List (List Nat)) (cumuls : List (List Int))
  | exn (msg : String)
  deriving DecidableEq, Repr

/-- Key of the matrix cache. `_get_cache_key` builds the string
`f"\x7bprofile\x7d:\x7blat1:.6f\x7d,\x7blng1:.6f\x7d|..."`; since that formatting is injective on
coordinates already held at 6-decimal precision, the key is modelled
structurally as the (profile, ordered coordinate list) pair. -/
abbrev CacheKey := String × List Loc

/-- Embeds `RouteOptimizer._get_cache_key`. -/
def getCacheKey (locations : List Loc) (profile : String) : CacheKey :=
  (profile, locations)

/-- Mutable cache state of a `RouteOptimizer` instance: `_matrix_cache` as an
insertion-ordered association list (Python dicts preserve insertion order;
overwriting a key keeps its position), with `_cache_hits` / `_cache_misses`. -/
structure CacheState where
  entries : List (CacheKey × Matrices)
  hits : Nat
  misses : Nat
  deriving DecidableEq, Repr

/-- Dictionary lookup `cache_key in self._matrix_cache` /
`self._matrix_cache[cache_key]` on the insertion-ordered entry list. -/
def lookupEntry : List (CacheKey × Matrices) → CacheKey → Option Matrices
  | [], _ => none
  | (k, v) :: t, key => if k = key then some v else lookupEntry t key

/-- Dictionary insertion `self._matrix_cache[cache_key] = matrices`:
overwriting an existing key keeps its insertion position, a new key is
appended at the end. -/
def insertEntry : List (CacheKey × Matrices) → CacheKey → Matrices → List (CacheKey × Matrices)
  | [], key, v => [(key, v)]
  | (k, v0) :: t, key, v => if k = key then (k, v) :: t else (k, v0) :: insertEntry t key v

/-- Embeds `RouteOptimizer._get_matrices`.  On a hit (key present and no
force-refresh) it increments the hit counter and returns the stored pair
without consulting the provider oracle.  Otherwise it increments the miss
counter, consults the provider, stores a successful response and evicts the
oldest-inserted entry when the entry count exceeds 1000; provider failures are
re-raised as `RouteOptimizationError` (with the miss counter already
incremented, as in the Python code). -/
def getMatrices (st : CacheState) (locations : List Loc) (profile : String)
    (forceRefresh : Bool) (provider : ProviderOutcome) :
    Except PyError Matrices × CacheState :=
  let key := getCacheKey locations profile
  match lookupEntry st.entries key, forceRefresh with
  | some m, false => (.ok m, { st with hits := st.hits + 1 })
  | _, _ =>
    let st1 : CacheState := { st with misses := st.misses + 1 }
    match provider with
    | .ok m =>
      let entries1 := insertEntry st1.entries key m
      let entries2 := if entries1.length > 1000 then entries1.tail else entries1
      (.ok m, { st1 with entries := entries2 })
    | .ghError e =>
      (.error (.routeOptimizationError
        ("Failed to get distance matrix: " ++ (if e.isEmpty then "Unknown error" else e))), st1)
    | .exn _ =>
      (.error (.routeOptimizationError
        "An unexpected error occurred while processing the distance matrix"), st1)

-- Basic cache lemmas

@[simp] theorem lookupEntry_nil (k : CacheKey) : lookupEntry [] k = none := rfl

@[simp] theorem lookupEntry_cons (k0 : CacheKey) (v0 : Matrices)
    (t : List (CacheKey × Matrices)) (k : CacheKey) :
    lookupEntry ((k0, v0) :: t) k = if k0 = k then some v0 else lookupEntry t k := rfl

@[simp] theorem insertEntry_nil (k : CacheKey) (v : Matrices) :
    insertEntry [] k v = [(k, v)] := rfl

@[simp] theorem insertEntry_cons (k0 : CacheKey) (v0 : Matrices)
    (t : List (CacheKey × Matrices)) (k : CacheKey) (v : Matrices) :
    insertEntry ((k0, v0) :: t) k v =
      if k0 = k then (k0, v) :: t else (k0, v0) :: insertEntry t k v := rfl

theorem lookupEntry_append_of_none {l : List (CacheKey × Matrices)} {k : CacheKey}
    (h : lookupEntry l k = none) (t : List (CacheKey × Matrices)) :
    lookupEntry (l ++ t) k = lookupEntry t k := by
  induction l with
  | nil => simp
  | cons hd tl ih =>
    obtain ⟨k0, v0⟩ := hd
    by_cases hk : k0 = k
    · simp [hk] at h
    · simp only [lookupEntry_cons, hk, if_false] at h
      simpa [hk] using ih h

theorem lookupEntry_append_of_some {l : List (CacheKey × Matrices)} {k : CacheKey} {m : Matrices}
    (h : lookupEntry l k = some m) (t : List (CacheKey × Matrices)) :
    lookupEntry (l ++ t) k = some m := by
  induction l with
  | nil => simp at h
  | cons hd tl ih =>
    obtain ⟨k0, v0⟩ := hd
    by_cases hk : k0 = k
    · simp only [lookupEntry_cons, hk, if_true] at h
      simpa [hk] using h
    · simp only [lookupEntry_cons, hk, if_false] at h
      simpa [hk] using ih h

theorem lookupEntry_tail_of_none {l : List (CacheKey × Matrices)} {k : CacheKey}
    (h : lookupEntry l k = none) : lookupEntry l.tail k = none := by
  cases l with
  | nil => simp
  | cons hd tl =>
    obtain ⟨k0, v0⟩ := hd
    by_cases hk : k0 = k
    · simp [hk] at h
    · simpa [hk] using h

theorem insertEntry_of_none {l : List (CacheKey × Matrices)} {k : CacheKey}
    (h : lookupEntry l k = none) (v : Matrices) :
    insertEntry l k v = l ++ [(k, v)] := by
  induction l with
  | nil => simp
  | cons hd tl ih =>
    obtain ⟨k0, v0⟩ := hd
    by_cases hk : k0 = k
    · simp [hk] at h
    · simp only [lookupEntry_cons, hk, if_false] at h
      simp [hk, ih h]

theorem insertEntry_length_of_some {l : List (CacheKey × Matrices)} {k : CacheKey} {m : Matrices}
    (h : lookupEntry l k = some m) (v : Matrices) :
    (insertEntry l k v).length = l.length := by
  induction l with
  | nil => simp at h
  | cons hd tl ih =>
    obtain ⟨k0, v0⟩ := hd
    by_cases hk : k0 = k
    · simp [hk]
    · simp only [lookupEntry_cons, hk, if_false] at h
      simp [hk, ih h]

-- Domain model: request objects and vehicle schedules

/-- A vehicle break (`VehicleBreak` request model); only the fields the
schedule generator copies are relevant here. -/
structure BreakM where
  id : String
  duration : Int
  timeWindows : List (Int × Int)
  deriving DecidableEq, Repr

/-- Vehicle request as consumed by the first `optimize_routes` definition and
`_generate_vehicle_schedules` (the endpoint-module `VehicleRequest` shape).
`startLocation`/`endLocation` are `Option` because the Python attributes can
be `None`, which is what the pre-validation checks for. -/
structure VehicleR where
  id : String
  startLocation : Option Loc
  endLocation : Option Loc := none
  timeWindow : Option (Int × Int) := none
  breaks : List BreakM := []
  maxDailyDrivingTime : Option Int := none
  maxDailyDistance : Option Int := none
  deriving DecidableEq, Repr

/-- Job request (`JobRequest`); `location` is `Option` for the same reason. -/
structure JobR where
  id : String
  location : Option Loc
  duration : Int := 300
  timeWindow : Option (Int × Int) := none
  priority : Int := 1
  deriving DecidableEq, Repr

/-- Planning horizon (`PlanningHorizon` schema).  A calendar date is embedded
as a `Nat` day number with epoch on a Monday, so that `weekday = date % 7`
matches Python `date.weekday()` (Monday = 0).  `workingHours` is the
`(start_seconds, end_seconds)` pair. -/
structure PlanningHorizonM where
  startDate : Nat
  endDate : Nat
  workingDays : List Nat
  workingHours : Nat × Nat := (9 * 3600, 17 * 3600)
  deriving DecidableEq, Repr

/-- One day of a vehicle's schedule (the `VehicleSchedule` dataclass); times
of day are seconds since midnight. -/
structure VehicleScheduleM where
  date : Nat
  startTime : Nat
  endTime : Nat
  breaks : List BreakM
  maxDrivingDuration : Option Int
  maxDistance : Option Int
  assignedJobs : List JobR := []
  deriving DecidableEq, Repr

/-- The dates visited by the `while current_date <= end_date` loop of
`_generate_vehicle_schedules`: `s, s+1, ..., e` (empty when `s > e`). -/
def horizonDates (s e : Nat) : List Nat :=
  (List.range (e + 1 - s)).map (fun i => s + i)

/-- Embeds `RouteOptimizer._generate_vehicle_schedules` for one vehicle:
with a planning horizon, one schedule per date in the horizon whose weekday is
in `working_days`; without one, a single schedule for today with the default
09:00-17:00 working hours. -/
def schedulesForVehicle (v : VehicleR) (ph : Option PlanningHorizonM) (today : Nat) :
    List VehicleScheduleM :=
  match ph with
  | some ph =>
    ((horizonDates ph.startDate ph.endDate).filter
        (fun d => ph.workingDays.contains (d % 7))).map
      (fun d =>
        { date := d
          startTime := ph.workingHours.1
          endTime := ph.workingHours.2
          breaks := v.breaks
          maxDrivingDuration := v.maxDailyDrivingTime
          maxDistance := v.maxDailyDistance })
  | none =>
    [{ date := today
       startTime := 9 * 3600
       endTime := 17 * 3600
       breaks := v.breaks
       maxDrivingDuration := v.maxDailyDrivingTime
       maxDistance := v.maxDailyDistance }]

/-- Embeds `RouteOptimizer._generate_vehicle_schedules` (the mapping
`vehicle_id -> list of VehicleSchedule`, in vehicle order). -/
def generateVehicleSchedules (vehicles : List VehicleR) (ph : Option PlanningHorizonM)
    (today : Nat) : List (String × List VehicleScheduleM) :=
  vehicles.map (fun v => (v.id, schedulesForVehicle v ph today))

-- Problem compilation: location indexing (`_prepare_optimization_data`)

/-- Dictionary lookup on the `location_to_idx` insertion-ordered map. -/
def lookupIdx : List (String × Nat) → String → Option Nat
  | [], _ => none
  | (k, v) :: t, key => if k = key then some v else lookupIdx t key

/-- One `if loc_key not in location_to_idx` step of
`_prepare_optimization_data`: register `key` at the next node index (the
current length of `locations`) unless it is already present. -/
def addLocKey (acc : List Loc × List (String × Nat)) (key : String) (loc : Loc) :
    List Loc × List (String × Nat) :=
  if (lookupIdx acc.2 key).isSome then acc
  else (acc.1 ++ [loc], acc.2 ++ [(key, acc.1.length)])

/-- Registers one vehicle's locations: the start under key `"<id>_start"`,
and the end under `"<id>_end"` only when an end location exists and differs
from the start. -/
def addVehicleLocs (acc : List Loc × List (String × Nat)) (v : VehicleR) :
    List Loc × List (String × Nat) :=
  let acc1 := addLocKey acc (v.id ++ "_start") (v.startLocation.getD (0, 0))
  if v.endLocation.isSome && v.endLocation != v.startLocation then
    addLocKey acc1 (v.id ++ "_end") (v.endLocation.getD (0, 0))
  else acc1

/-- Registers one job's location under key `"job_<id>"` and records
`job_indices[job.id] = location_to_idx[loc_key]`. -/
def addJobLoc (acc : (List Loc × List (String × Nat)) × List (String × Nat)) (j : JobR) :
    (List Loc × List (String × Nat)) × List (String × Nat) :=
  let a := addLocKey acc.1 ("job_" ++ j.id) (j.location.getD (0, 0))
  (a, acc.2 ++ [(j.id, (lookupIdx a.2 ("job_" ++ j.id)).getD 0)])

/-- Embeds the location-collection phase of
`RouteOptimizer._prepare_optimization_data` (lines 505-531): the deduplicated
`locations` list, the `location_to_idx` map and the `job_indices` map. -/
def prepareLocations (vehicles : List VehicleR) (jobs : List JobR) :
    (List Loc × List (String × Nat)) × List (String × Nat) :=
  jobs.foldl addJobLoc (vehicles.foldl addVehicleLocs ([], []), [])

-- Internal `Job` / `Vehicle` classes and the live (second) `optimize_routes`

/-- The module-level `Job` class of `route_optimizer.py` (the fields the live
code path reads). -/
structure JobC where
  id : String
  location : Option Loc
  duration : Int := 300
  deriving DecidableEq, Repr

/-- The module-level `Vehicle` class of `route_optimizer.py`. -/
structure VehicleC where
  id : String
  startLocation : Option Loc
  capacity : Int := 1
  deriving DecidableEq, Repr

/-- The default vehicle the second `optimize_routes` creates when none are
supplied: `Vehicle(id="default_vehicle", start_location=jobs[0].location,
capacity=10)`. -/
def defaultVehicle (depot : Option Loc) : VehicleC :=
  { id := "default_vehicle", startLocation := depot, capacity := 10 }

/-- Matrix entry access `matrix[i][j]` (in-bounds in every reachable use). -/
def matGet (m : List (List Int)) (i j : Nat) : Int :=
  (m.getD i []).getD j 0

/-- A stop dictionary built by `RouteOptimizer._format_solution`. -/
structure StopM where
  jobId : String
  location : Option Loc
  distanceFromPrev : Int
  durationFromPrev : Int
  serviceTime : Int
  arrivalTime : Int
  departureTime : Int
  deriving DecidableEq, Repr

/-- A route dictionary built by `RouteOptimizer._format_solution`. -/
structure RouteM where
  vehicleId : String
  stops : List StopM
  totalDistance : Int
  totalDuration : Int
  deriving DecidableEq, Repr

/-- The solution dictionary returned by `RouteOptimizer._format_solution`
(the run timestamp is omitted from the model). -/
structure SolutionM where
  status : String
  routes : List RouteM
  totalDistance : Int
  totalDuration : Int
  optimizationType : String
  deriving DecidableEq, Repr

/-- The `while not routing.IsEnd(index)` walk of `_format_solution` over one
vehicle's visit path.  `prev` is `prev_index`; per arc it accumulates the
distance/duration (arc out of the current node) and records a stop for the
current node when it is a non-depot node with a valid job index
(`node - num_depots` computed in `Int` as in Python). -/
def walkStops (dist dur : List (List Int)) (numDepots : Nat) (jobs : List JobC)
    (prev : Nat) (rdist rdur : Int) : List Nat → List StopM × Int × Int
  | [] => ([], rdist, rdur)
  | [_] => ([], rdist, rdur)
  | node :: next :: rest =>
    let rdist1 := rdist + matGet dist node next
    let rdur1 := rdur + matGet dur node next
    let maxNode := dist.length - 1
    let jobIdx : Int := (node : Int) - (numDepots : Int)
    let here : List StopM :=
      if node > 0 then
        if 0 ≤ jobIdx ∧ jobIdx < (jobs.length : Int) then
          let job := jobs.getD jobIdx.toNat { id := "", location := none, duration := 0 }
          [{ jobId := job.id
             location := job.location
             distanceFromPrev := matGet dist (min prev maxNode) (min node maxNode)
             durationFromPrev := matGet dur (min prev maxNode) (min node maxNode)
             serviceTime := job.duration
             arrivalTime := rdur1
             departureTime := rdur1 + job.duration }]
        else []
      else []
    let (more, d, t) := walkStops dist dur numDepots jobs node rdist1 rdur1 (next :: rest)
    (here ++ more, d, t)

/-- One route of `_format_solution` for a vehicle and its visit path. -/
def walkRoute (dist dur : List (List Int)) (numDepots : Nat) (jobs : List JobC)
    (v : VehicleC) (path : List Nat) : RouteM :=
  let (stops, d, t) := walkStops dist dur numDepots jobs (path.headD 0) 0 0 path
  { vehicleId := v.id, stops := stops, totalDistance := d, totalDuration := t }

/-- Embeds `RouteOptimizer._format_solution`: walks every vehicle's visit
sequence and accumulates the grand totals. -/
def formatSolution (dist dur : List (List Int)) (optimizationType : String)
    (vehicles : List VehicleC) (jobs : List JobC) (paths : List (List Nat)) : SolutionM :=
  let routes := (vehicles.zip paths).map
    (fun vp => walkRoute dist dur vehicles.length jobs vp.1 vp.2)
  { status := "success"
    routes := routes
    totalDistance := routes.foldl (fun a r => a + r.totalDistance) 0
    totalDuration := routes.foldl (fun a r => a + r.totalDuration) 0
    optimizationType := optimizationType }

/-- Collects the location list of the live `optimize_routes`
(`[v.start_location for v in vehicles] + [job.location for job in jobs]`,
with no deduplication), failing like the Python `for lat, lon in locations`
unpack in `_get_cache_key` when any entry is `None`. -/
def seqLocs : List (Option Loc) → Option (List Loc)
  | [] => some []
  | none :: _ => none
  | some l :: rest => (seqLocs rest).map (fun ls => l :: ls)

/-- Embeds the second (and therefore effective) definition of
`RouteOptimizer.optimize_routes` (line 933), the one that shadows the first:
validates `optimization_type`, rejects an empty job list, substitutes a
default vehicle when none are given, fetches matrices through the cache,
solves, and wraps every exception of the try block into
`RouteOptimizationError("Route optimization failed: ...")`. -/
def optimizeRoutes (jobs : List JobC) (optimizationType : String)
    (vehicles : Option (List VehicleC)) (profile : String)
    (st : CacheState) (provider : ProviderOutcome) (solver : SolverOutcome) :
    Except PyError SolutionM × CacheState :=
  if optimizationType ≠ "distance" ∧ optimizationType ≠ "duration" then
    (.error (.valueError "optimization_type must be either distance or duration"), st)
  else
    match jobs with
    | [] => (.error (.routeOptimizationError "No jobs provided for optimization"), st)
    | j0 :: _ =>
      let vehicles1 : List VehicleC :=
        match vehicles with
        | none => [defaultVehicle j0.location]
        | some [] => [defaultVehicle j0.location]
        | some vs => vs
      let locOpts := vehicles1.map (fun v => v.startLocation) ++ jobs.map (fun j => j.location)
      match seqLocs locOpts with
      | none =>
        (.error (.routeOptimizationError
          ("Route optimization failed: " ++
            "An unexpected error occurred while processing the distance matrix")), st)
      | some locs =>
        match getMatrices st locs profile false provider with
        | (.error e, st1) =>
          (.error (.routeOptimizationError ("Route optimization failed: " ++ e.msg)), st1)
        | (.ok ms, st1) =>
          match solver with
          | .noSolution =>
            (.error (.routeOptimizationError
              ("Route optimization failed: " ++ "No solution found for the given constraints")), st1)
          | .exn m =>
            (.error (.routeOptimizationError ("Route optimization failed: " ++ m)), st1)
          | .solution paths _ =>
            (.ok (formatSolution ms.distances ms.times optimizationType vehicles1 jobs paths), st1)

-- The shadowed first `optimize_routes` definition and its pipeline

/-- Result status enum (`OptimizationStatus`). -/
inductive StatusM where
  | pending
  | inProgress
  | completed
  | failed
  deriving DecidableEq, Repr

/-- A stop dictionary of `_solve_optimization`'s extraction loop
(`location` is the NEXT node index, arrival/departure both read the solver's
cumulative time at the current position, as the Python code does). -/
structure RawStopV1 where
  location : Nat
  arrivalTime : Int
  departureTime : Int
  deriving DecidableEq, Repr

/-- A route dictionary of `_solve_optimization`. -/
structure RawRouteV1 where
  vehicleId : String
  distance : Int
  duration : Int
  stops : List RawStopV1
  deriving DecidableEq, Repr

/-- The raw dictionary `_solve_optimization` returns; `total_*` are `Option`
because the failure dictionaries omit them (`dict.get` defaults apply). -/
structure RawSolutionV1 where
  status : String
  message : Option String := none
  routes : List RawRouteV1 := []
  totalDistance : Option Int := none
  totalDuration : Option Int := none
  totalCost : Option Int := none
  deriving DecidableEq, Repr

/-- Extraction loop of `_solve_optimization` for one vehicle: walks the visit
path accumulating arc distance/duration, appending one stop per arc whose
`location` is the next node and whose times are the solver cumulative value at
the current position. -/
def extractStopsV1 (dist dur : List (List Int)) (cumul : List Int)
    (rdist rdur : Int) (pos : Nat) : List Nat → List RawStopV1 × Int × Int
  | [] => ([], rdist, rdur)
  | [_] => ([], rdist, rdur)
  | node :: next :: rest =>
    let rdist1 := rdist + matGet dist node next
    let rdur1 := rdur + matGet dur node next
    let stop : RawStopV1 :=
      { location := next
        arrivalTime := cumul.getD pos 0
        departureTime := cumul.getD pos 0 }
    let (more, d, t) := extractStopsV1 dist dur cumul rdist1 rdur1 (pos + 1) (next :: rest)
    (stop :: more, d, t)

/-- Per-vehicle extraction of `_solve_optimization` (vehicles paired with the
solver's paths and cumulative-time lists positionally). -/
def extractRoutesV1 (dist dur : List (List Int)) :
    List VehicleC → List (List Nat) → List (List Int) → List RawRouteV1
  | [], _, _ => []
  | v :: vs, paths, cumuls =>
    let path := paths.headD []
    let (stops, d, t) := extractStopsV1 dist dur (cumuls.headD []) 0 0 0 path
    { vehicleId := v.id, distance := d, duration := t, stops := stops } ::
      extractRoutesV1 dist dur vs paths.tail cumuls.tail

/-- Embeds `RouteOptimizer._solve_optimization` (first pipeline).  It catches
every exception internally and returns a status dictionary: `'failed'` when
the solver finds no assignment, `'error'` when model building or solving
raises, `'success'` with routes and totals otherwise.  It never raises. -/
def solveOptimizationV1 (dist dur : List (List Int)) (vehicles : List VehicleC)
    (solver : SolverOutcome) : RawSolutionV1 :=
  match solver with
  | .noSolution => { status := "failed", message := some "No solution found" }
  | .exn m => { status := "error", message := some m }
  | .solution paths cumuls =>
    let routes := extractRoutesV1 dist dur vehicles paths cumuls
    { status := "success"
      routes := routes
      totalDistance := some (routes.foldl (fun a r => a + r.distance) 0)
      totalDuration := some (routes.foldl (fun a r => a + r.duration) 0)
      totalCost := some (routes.foldl (fun a r => a + r.duration) 0) }

/-- The `OptimizationResult` dataclass (metadata omitted from the model). -/
structure OptimizationResultV1 where
  status : StatusM
  routes : List RawRouteV1 := []
  totalDistance : Int := 0
  totalDuration : Int := 0
  totalCost : Int := 0
  errors : List String := []
  deriving DecidableEq, Repr

/-- Embeds `RouteOptimizer._format_optimization_result`: reads the raw
dictionary with `dict.get` defaults and always constructs a COMPLETED result,
whatever the raw status says. -/
def formatOptimizationResultV1 (raw : RawSolutionV1) : OptimizationResultV1 :=
  { status := .completed
    routes := raw.routes
    totalDistance := raw.totalDistance.getD 0
    totalDuration := raw.totalDuration.getD 0
    totalCost := raw.totalCost.getD 0 }

/-- First missing-start-location index among the vehicles
(the `for i, vehicle in enumerate(vehicles)` pre-validation loop). -/
def firstMissingStart : List VehicleR → Nat → Option Nat
  | [], _ => none
  | v :: vs, i => if v.startLocation.isNone then some i else firstMissingStart vs (i + 1)

/-- First missing-location index among the jobs. -/
def firstMissingLocation : List JobR → Nat → Option Nat
  | [], _ => none
  | j :: js, i => if j.location.isNone then some i else firstMissingLocation js (i + 1)

/-- Converts a request vehicle to the internal shape used by the solver
pipeline (only the fields the pipeline reads). -/
def vehicleRtoC (v : VehicleR) : VehicleC :=
  { id := v.id, startLocation := v.startLocation }

/-- Embeds the FIRST definition of `RouteOptimizer.optimize_routes`
(line 332) — the definition that is shadowed at runtime by the second one.
It returns, alongside the `OptimizationResult`, the ordered list of distinct
status values the result takes during the call (the state-machine trace).
Pre-validation errors are raised (`Except.error`) before the result object
exists; after that, every component failure is converted into a FAILED
result.  Matrix-fetch failures surface as `RouteOptimizationError` from
`_get_matrices` and are therefore caught by the OUTER `except Exception`
handler (the inner `except GraphHopperClientError` branch is dead code), and
`_solve_optimization` never raises, so its failure dictionaries flow into
`_format_optimization_result` and yield a COMPLETED result. -/
def optimizeRoutesV1 (vehicles : Option (List VehicleR)) (jobs : Option (List JobR))
    (planningHorizon : Option PlanningHorizonM) (profile : String) (today : Nat)
    (st : CacheState) (provider : ProviderOutcome) (solver : SolverOutcome) :
    Except PyError (OptimizationResultV1 × List StatusM) × CacheState :=
  match vehicles with
  | none => (.error (.valueError "vehicles cannot be None"), st)
  | some [] => (.error (.valueError "At least one vehicle must be provided"), st)
  | some vs =>
    let js := jobs.getD []
    match firstMissingStart vs 0 with
    | some i =>
      (.error (.valueError ("Vehicle at index " ++ toString i ++ " is missing start_location")), st)
    | none =>
      match firstMissingLocation js 0 with
      | some i =>
        (.error (.valueError ("Job at index " ++ toString i ++ " is missing location")), st)
      | none =>
        -- result initialized with status IN_PROGRESS; schedules generated
        let _schedules := generateVehicleSchedules vs planningHorizon today
        let prep := prepareLocations vs js
        match getMatrices st prep.1.1 profile false provider with
        | (.error e, st1) =>
          -- outer `except Exception`: terminal FAILED
          ((.ok ({ status := .failed
                   errors := ["Unexpected error during optimization: " ++ e.msg] },
                 [.inProgress, .failed])), st1)
        | (.ok ms, st1) =>
          let raw := solveOptimizationV1 ms.distances ms.times (vs.map vehicleRtoC) solver
          let res := formatOptimizationResultV1 raw
          ((.ok ({ res with status := .completed }, [.inProgress, .completed])), st1)

-- Request boundary (`app/api/v1/endpoints/optimization.py`)

/-- The `OptimizationRequest` body model of the optimize endpoint. -/
structure OptimizationRequestM where
  vehicles : List VehicleR
  jobs : List JobR
  optimizationType : String := "duration"
  planningHorizon : Option PlanningHorizonM := none
  deriving DecidableEq, Repr

/-- The `validate_vehicles` field validator of `OptimizationRequest`. -/
def validateVehiclesField (v : List VehicleR) : Except String (List VehicleR) :=
  if v.isEmpty then .error "At least one vehicle must be provided" else .ok v

/-- The `validate_jobs` field validator of `OptimizationRequest`. -/
def validateJobsField (v : List JobR) : Except String (List JobR) :=
  if v.isEmpty then .error "At least one job must be provided" else .ok v

/-- All schema-validation error messages pydantic collects for a request
(field validators run per field, in declaration order). -/
def requestValidationErrors (r : OptimizationRequestM) : List String :=
  (match validateVehiclesField r.vehicles with
   | .error m => [m]
   | .ok _ => []) ++
  (match validateJobsField r.jobs with
   | .error m => [m]
   | .ok _ => [])

/-- Conversion of a request job to the internal `Job` class, as done in the
endpoint handler body. -/
def jobRtoC (j : JobR) : JobC :=
  { id := j.id, location := j.location, duration := j.duration }

/-- Embeds the `/optimize` endpoint boundary: pydantic validates the request
body BEFORE the handler body runs; on validation failure FastAPI answers 422
with the collected messages and the optimizer is never constructed or called;
otherwise the handler converts the request models and calls the (effective)
`optimize_routes`. -/
def handleOptimize (r : OptimizationRequestM) (profile : String) (st : CacheState)
    (provider : ProviderOutcome) (solver : SolverOutcome) :
    Except (List String) (Except PyError SolutionM × CacheState) :=
  match requestValidationErrors r with
  | [] =>
    .ok (optimizeRoutes (r.jobs.map jobRtoC) r.optimizationType
      (some (r.vehicles.map vehicleRtoC)) profile st provider solver)
  | es => .error es

deriving instance DecidableEq for Except

-- Shared concrete fixtures for closed evaluations

/-- A concrete job at Central London (micro-degrees). -/
def jFix : JobC := { id := "j1", location := some (51507400, -127800), duration := 1800 }

/-- A concrete vehicle at London (micro-degrees). -/
def vFix : VehicleC := { id := "v1", startLocation := some (51534377, -87891) }

/-- A concrete provider response for two locations. -/
def mFix : Matrices := { distances := [[0, 1000], [2000, 0]], times := [[0, 60], [120, 0]] }

/-- A fresh optimizer cache state. -/
def stEmpty : CacheState := { entries := [], hits := 0, misses := 0 }

/-- A concrete solver assignment: the single vehicle leaves node 0, serves
node 1 and returns to node 0. -/
def solFix : SolverOutcome := .solution [[0, 1, 0]] [[0, 0, 0]]

/-- Claim C1: against the effective public entry point (the second
`optimize_routes` definition, which shadows the first), the claim fails both
ways: (i) a non-empty vehicle list with an empty job list RAISES
`RouteOptimizationError("No jobs provided for optimization")` instead of
returning a COMPLETED result with zero routes and totals, and (ii) an empty
vehicle list with a non-empty job list does NOT raise a validation error (a
default vehicle is silently substituted and the call succeeds); (iii) the
claimed behaviour for empty vehicles is exactly what the shadowed first
definition implements, confirming the claim describes the intended code. -/
theorem claim_C1_code_divergence :
    (optimizeRoutes [] "duration" (some [vFix]) "car" stEmpty (.ok mFix) solFix).1
      = .error (.routeOptimizationError "No jobs provided for optimization")
    ∧ ((optimizeRoutes [jFix] "duration" (some []) "car" stEmpty (.ok mFix) solFix).1).isOk
        = true
    ∧ (optimizeRoutesV1 (some []) (some [{ id := "j1", location := some (51507400, -127800) }])
          none "car" 0 stEmpty (.ok mFix) solFix).1
        = .error (.valueError "At least one vehicle must be provided") := by
  refine ⟨by decide, by decide, by decide⟩

/-- Claim C2: the effective `optimize_routes` PROPAGATES component failures to
its caller instead of converting them into a FAILED result: (i) a matrix
provider error is re-raised as
`RouteOptimizationError("Route optimization failed: Failed to get distance matrix: ...")`,
and (ii) solver infeasibility is re-raised as
`RouteOptimizationError("Route optimization failed: No solution found for the given constraints")`.
Both contradict the claim (and the repository's own
`test_optimize_routes_api_error`, which expects a returned FAILED result). -/
theorem claim_C2_code_divergence :
    (optimizeRoutes [jFix] "duration" (some [vFix]) "car" stEmpty (.ghError "API Error") solFix).1
      = .error (.routeOptimizationError
          "Route optimization failed: Failed to get distance matrix: API Error")
    ∧ (optimizeRoutes [jFix] "duration" (some [vFix]) "car" stEmpty (.ok mFix) .noSolution).1
        = .error (.routeOptimizationError
            "Route optimization failed: No solution found for the given constraints") := by
  refine ⟨by decide, by decide⟩

/-- Claim C8: the effective `optimize_routes` performs NO per-index location
validation: (i) a job with a missing location surfaces as the generic
catch-all `RouteOptimizationError("Route optimization failed: An unexpected
error occurred while processing the distance matrix")` (the `None` location
blows up inside `_get_cache_key`), not as a validation error naming the job
index; (ii) and (iii): the claimed index-naming rejections are exactly what
the shadowed first definition implements for a missing job location and a
missing vehicle start location. -/
theorem claim_C8_code_divergence :
    (optimizeRoutes [{ id := "j1", location := none }] "duration" (some [vFix]) "car" stEmpty
        (.ok mFix) solFix).1
      = .error (.routeOptimizationError
          ("Route optimization failed: An unexpected error occurred while processing the distance matrix"))
    ∧ (optimizeRoutesV1 (some [{ id := "v1", startLocation := some (51534377, -87891) }])
          (some [{ id := "j1", location := none }]) none "car" 0 stEmpty (.ok mFix) solFix).1
        = .error (.valueError "Job at index 0 is missing location")
    ∧ (optimizeRoutesV1 (some [{ id := "v1", startLocation := none }])
          (some [{ id := "j1", location := some (51507400, -127800) }]) none "car" 0 stEmpty
          (.ok mFix) solFix).1
        = .error (.valueError "Vehicle at index 0 is missing start_location") := by
  refine ⟨by decide, by decide, by decide⟩

/-- Request-model fixtures for the first-definition pipeline. -/
def vRFix : VehicleR := { id := "v1", startLocation := some (51534377, -87891) }

/-- A concrete request job with a location. -/
def jRFix : JobR := { id := "j1", location := some (51507400, -127800) }

/-- Claim C3 counterexample: at a concrete input where the solver step returns
the failure dictionary (`status = "failed"`, first conjunct), the first
`optimize_routes` definition still ends COMPLETED — the Result Formatter runs
on the failure dictionary and produces a COMPLETED result with empty routes
and zero totals — and the observed status trace is
`[IN_PROGRESS, COMPLETED]` (PENDING is never an observed state and FAILED is
not reached), refuting the claim as stated. -/
theorem claim_C3_counterexample :
    (solveOptimizationV1 mFix.distances mFix.times [vehicleRtoC vRFix] .noSolution).status
      = "failed"
    ∧ (optimizeRoutesV1 (some [vRFix]) (some [jRFix]) none "car" 0 stEmpty (.ok mFix)
          .noSolution).1
        = .ok ({ status := .completed }, [.inProgress, .completed]) := by
  refine ⟨by decide, by decide⟩

/-- Claim C3 amended: once pre-validation passes, one call to the first
`optimize_routes` definition produces the status trace
`[IN_PROGRESS, terminal]` with exactly one terminal state in
`\x7bCOMPLETED, FAILED\x7d` and no state re-entered; the terminal state is
COMPLETED exactly when the matrix fetch succeeds (a solver step that merely
RETURNS a failed/error status value still yields COMPLETED; FAILED is reached
exactly when the matrix fetch raises). -/
theorem claim_C3_amended (vs : List VehicleR) (js : List JobR)
    (ph : Option PlanningHorizonM) (profile : String) (today : Nat)
    (st : CacheState) (provider : ProviderOutcome) (solver : SolverOutcome)
    (hvs : vs ≠ []) (hstart : firstMissingStart vs 0 = none)
    (hloc : firstMissingLocation js 0 = none) :
    ∃ res trace st1,
      optimizeRoutesV1 (some vs) (some js) ph profile today st provider solver
        = (.ok (res, trace), st1)
      ∧ trace = [.inProgress, res.status]
      ∧ (res.status = .completed ∨ res.status = .failed)
      ∧ (res.status = .completed ↔
          ((getMatrices st (prepareLocations vs js).1.1 profile false provider).1).isOk = true) := by
  obtain ⟨v, vs', rfl⟩ : ∃ v vs', vs = v :: vs' := by
    cases vs with
    | nil => exact absurd rfl hvs
    | cons v vs' => exact ⟨v, vs', rfl⟩
  obtain ⟨r, st1, hg⟩ : ∃ r st1,
      getMatrices st (prepareLocations (v :: vs') js).1.1 profile false provider = (r, st1) :=
    ⟨_, _, rfl⟩
  cases r with
  | error e =>
    refine ⟨{ status := .failed
              errors := ["Unexpected error during optimization: " ++ e.msg] },
      [.inProgress, .failed], st1, ?_, rfl, Or.inr rfl, ?_⟩
    · simp only [optimizeRoutesV1, hstart, Option.getD_some, hloc, hg]
    · simp [hg, Except.isOk, Except.toBool]
  | ok ms =>
    refine ⟨{ formatOptimizationResultV1
                (solveOptimizationV1 ms.distances ms.times ((v :: vs').map vehicleRtoC) solver)
              with status := .completed },
      [.inProgress, .completed], st1, ?_, rfl, Or.inl rfl, ?_⟩
    · simp only [optimizeRoutesV1, hstart, Option.getD_some, hloc, hg]
    · simp [hg, Except.isOk, Except.toBool]

/-- Witness for the amended claim C3 at a concrete input. -/
theorem claim_C3_amended_witness :
    (([vRFix] : List VehicleR) ≠ [] ∧ firstMissingStart [vRFix] 0 = none
      ∧ firstMissingLocation [jRFix] 0 = none)
    ∧ ∃ res trace st1,
        optimizeRoutesV1 (some [vRFix]) (some [jRFix]) none "car" 0 stEmpty (.ok mFix) solFix
          = (.ok (res, trace), st1)
        ∧ trace = [.inProgress, res.status]
        ∧ (res.status = .completed ∨ res.status = .failed)
        ∧ (res.status = .completed ↔
            ((getMatrices stEmpty (prepareLocations [vRFix] [jRFix]).1.1 "car" false
                (.ok mFix)).1).isOk = true) :=
  ⟨⟨by decide, by decide, by decide⟩,
    claim_C3_amended [vRFix] [jRFix] none "car" 0 stEmpty (.ok mFix) solFix
      (by decide) (by decide) (by decide)⟩

-- Lemmas about the node-index assignment of `_prepare_optimization_data`

@[simp] theorem lookupIdx_nil (k : String) : lookupIdx [] k = none := rfl

@[simp] theorem lookupIdx_cons (k0 : String) (v0 : Nat) (t : List (String × Nat)) (k : String) :
    lookupIdx ((k0, v0) :: t) k = if k0 = k then some v0 else lookupIdx t k := rfl

theorem lookupIdx_append_of_none {m : List (String × Nat)} {k : String}
    (h : lookupIdx m k = none) (t : List (String × Nat)) :
    lookupIdx (m ++ t) k = lookupIdx t k := by
  induction m with
  | nil => simp
  | cons hd tl ih =>
    obtain ⟨k0, v0⟩ := hd
    by_cases hk : k0 = k
    · simp [hk] at h
    · simp only [lookupIdx_cons, hk, if_false] at h
      simpa [hk] using ih h

theorem lookupIdx_append_of_some {m : List (String × Nat)} {k : String} {i : Nat}
    (h : lookupIdx m k = some i) (t : List (String × Nat)) :
    lookupIdx (m ++ t) k = some i := by
  induction m with
  | nil => simp at h
  | cons hd tl ih =>
    obtain ⟨k0, v0⟩ := hd
    by_cases hk : k0 = k
    · simp only [lookupIdx_cons, hk, if_true] at h
      simpa [hk] using h
    · simp only [lookupIdx_cons, hk, if_false] at h
      simpa [hk] using ih h

theorem lookupIdx_mem_snd {m : List (String × Nat)} {k : String} {i : Nat}
    (h : lookupIdx m k = some i) : i ∈ m.map Prod.snd := by
  induction m with
  | nil => simp at h
  | cons hd tl ih =>
    obtain ⟨k0, v0⟩ := hd
    by_cases hk : k0 = k
    · simp only [lookupIdx_cons, hk, if_true, Option.some_inj] at h
      simp [h]
    · simp only [lookupIdx_cons, hk, if_false] at h
      simp [ih h]

theorem lookupIdx_ne_of_nodup {m : List (String × Nat)} {k1 k2 : String} {i j : Nat}
    (hn : (m.map Prod.snd).Nodup) (hk : k1 ≠ k2)
    (h1 : lookupIdx m k1 = some i) (h2 : lookupIdx m k2 = some j) : i ≠ j := by
  induction m with
  | nil => simp at h1
  | cons hd tl ih =>
    obtain ⟨k0, v0⟩ := hd
    simp only [List.map_cons, List.nodup_cons] at hn
    by_cases e1 : k0 = k1
    · by_cases e2 : k0 = k2
      · exact absurd (e1 ▸ e2) hk
      · simp only [lookupIdx_cons, e1, if_true, Option.some_inj] at h1
        simp only [lookupIdx_cons, e2, if_false] at h2
        have hj : j ∈ tl.map Prod.snd := lookupIdx_mem_snd h2
        intro hij
        exact hn.1 (h1 ▸ hij ▸ hj)
    · by_cases e2 : k0 = k2
      · simp only [lookupIdx_cons, e2, if_true, Option.some_inj] at h2
        simp only [lookupIdx_cons, e1, if_false] at h1
        have hi : i ∈ tl.map Prod.snd := lookupIdx_mem_snd h1
        intro hij
        exact hn.1 (h2 ▸ hij ▸ hi)
      · simp only [lookupIdx_cons, e1, e2, if_false] at h1 h2
        exact ih hn.2 h1 h2

/-- Invariant of the location-collection fold: the node indices stored in
`location_to_idx`, in insertion order, are exactly `0, 1, ..., n-1` where `n`
is the length of the `locations` list (zero-based, first-seen order). -/
def IdxInv (acc : List Loc × List (String × Nat)) : Prop :=
  acc.2.map Prod.snd = List.range acc.1.length

theorem idxInv_addLocKey {acc : List Loc × List (String × Nat)} (h : IdxInv acc)
    (key : String) (loc : Loc) : IdxInv (addLocKey acc key loc) := by
  unfold addLocKey
  by_cases hk : (lookupIdx acc.2 key).isSome
  · simpa [hk] using h
  · simp only [hk, if_false]
    unfold IdxInv at h ⊢
    simp [List.range_succ, h]

theorem idxInv_addVehicleLocs {acc : List Loc × List (String × Nat)} (h : IdxInv acc)
    (v : VehicleR) : IdxInv (addVehicleLocs acc v) := by
  unfold addVehicleLocs
  by_cases he : v.endLocation.isSome && v.endLocation != v.startLocation
  · simp only [he, if_true]
    exact idxInv_addLocKey (idxInv_addLocKey h _ _) _ _
  · simp only [he, if_false]
    exact idxInv_addLocKey h _ _

theorem idxInv_foldVehicles (vehicles : List VehicleR)
    {acc : List Loc × List (String × Nat)} (h : IdxInv acc) :
    IdxInv (vehicles.foldl addVehicleLocs acc) := by
  induction vehicles generalizing acc with
  | nil => simpa using h
  | cons v vs ih => simpa using ih (idxInv_addVehicleLocs h v)

theorem idxInv_addJobLoc {acc : (List Loc × List (String × Nat)) × List (String × Nat)}
    (h : IdxInv acc.1) (j : JobR) : IdxInv (addJobLoc acc j).1 :=
  idxInv_addLocKey h _ _

theorem idxInv_foldJobs (jobs : List JobR)
    {acc : (List Loc × List (String × Nat)) × List (String × Nat)} (h : IdxInv acc.1) :
    IdxInv (jobs.foldl addJobLoc acc).1 := by
  induction jobs generalizing acc with
  | nil => simpa using h
  | cons j js ih => simpa using ih (idxInv_addJobLoc h j)

theorem idxInv_prepareLocations (vehicles : List VehicleR) (jobs : List JobR) :
    IdxInv (prepareLocations vehicles jobs).1 :=
  idxInv_foldJobs jobs (idxInv_foldVehicles vehicles (by simp [IdxInv]))

theorem lookupIdx_addLocKey_of_some {acc : List Loc × List (String × Nat)}
    {k : String} {i : Nat} (h : lookupIdx acc.2 k = some i) (key : String) (loc : Loc) :
    lookupIdx (addLocKey acc key loc).2 k = some i := by
  unfold addLocKey
  by_cases hk : (lookupIdx acc.2 key).isSome
  · simpa [hk] using h
  · simp only [hk, if_false]
    exact lookupIdx_append_of_some h _

theorem lookupIdx_addLocKey_self (acc : List Loc × List (String × Nat))
    (key : String) (loc : Loc) :
    (lookupIdx (addLocKey acc key loc).2 key).isSome = true := by
  unfold addLocKey
  by_cases hk : (lookupIdx acc.2 key).isSome
  · simp [hk]
  · simp only [hk, if_false]
    have hn : lookupIdx acc.2 key = none := Option.not_isSome_iff_eq_none.mp (by simp [hk])
    simp [lookupIdx_append_of_none hn]

theorem lookupIdx_addVehicleLocs_of_some {acc : List Loc × List (String × Nat)}
    {k : String} {i : Nat} (h : lookupIdx acc.2 k = some i) (v : VehicleR) :
    lookupIdx (addVehicleLocs acc v).2 k = some i := by
  unfold addVehicleLocs
  by_cases he : v.endLocation.isSome && v.endLocation != v.startLocation
  · simp only [he, if_true]
    exact lookupIdx_addLocKey_of_some (lookupIdx_addLocKey_of_some h _ _) _ _
  · simp only [he, if_false]
    exact lookupIdx_addLocKey_of_some h _ _

theorem lookupIdx_addVehicleLocs_self (acc : List Loc × List (String × Nat)) (v : VehicleR) :
    (lookupIdx (addVehicleLocs acc v).2 (v.id ++ "_start")).isSome = true := by
  unfold addVehicleLocs
  by_cases he : v.endLocation.isSome && v.endLocation != v.startLocation
  · simp only [he, if_true]
    obtain ⟨i, hi⟩ := Option.isSome_iff_exists.mp
      (lookupIdx_addLocKey_self acc (v.id ++ "_start") (v.startLocation.getD (0, 0)))
    have h2 := lookupIdx_addLocKey_of_some hi (v.id ++ "_end") (v.endLocation.getD (0, 0))
    simpa using congrArg Option.isSome h2
  · simp only [he, if_false]
    exact lookupIdx_addLocKey_self acc _ _

theorem lookupIdx_foldVehicles_of_some {vehicles : List VehicleR}
    {acc : List Loc × List (String × Nat)} {k : String} {i : Nat}
    (h : lookupIdx acc.2 k = some i) :
    lookupIdx (vehicles.foldl addVehicleLocs acc).2 k = some i := by
  induction vehicles generalizing acc with
  | nil => simpa using h
  | cons v vs ih => simpa using ih (lookupIdx_addVehicleLocs_of_some h v)

theorem lookupIdx_foldJobs_of_some {jobs : List JobR}
    {acc : (List Loc × List (String × Nat)) × List (String × Nat)} {k : String} {i : Nat}
    (h : lookupIdx acc.1.2 k = some i) :
    lookupIdx (jobs.foldl addJobLoc acc).1.2 k = some i := by
  induction jobs generalizing acc with
  | nil => simpa using h
  | cons j js ih =>
    exact ih (lookupIdx_addLocKey_of_some h _ _)

theorem lookupIdx_prepareLocations_start {vehicles : List VehicleR} (jobs : List JobR)
    {v : VehicleR} (hv : v ∈ vehicles) :
    (lookupIdx (prepareLocations vehicles jobs).1.2 (v.id ++ "_start")).isSome = true := by
  obtain ⟨s, t, rfl⟩ := List.append_of_mem hv
  have hfold : (s ++ v :: t).foldl addVehicleLocs ([], []) =
      t.foldl addVehicleLocs (addVehicleLocs (s.foldl addVehicleLocs ([], [])) v) := by
    simp [List.foldl_append]
  obtain ⟨i, hi⟩ := Option.isSome_iff_exists.mp
    (lookupIdx_addVehicleLocs_self (s.foldl addVehicleLocs ([], [])) v)
  have h2 : lookupIdx ((s ++ v :: t).foldl addVehicleLocs ([], [])).2 (v.id ++ "_start")
      = some i := by
    rw [hfold]
    exact lookupIdx_foldVehicles_of_some hi
  have h3 : lookupIdx (prepareLocations (s ++ v :: t) jobs).1.2 (v.id ++ "_start") = some i := by
    unfold prepareLocations
    exact lookupIdx_foldJobs_of_some h2
  simp [h3]

theorem start_key_ne {a b : String} (h : a ≠ b) : a ++ "_start" ≠ b ++ "_start" := by
  intro he
  apply h
  have hd : (a ++ "_start").data = (b ++ "_start").data := by rw [he]
  simp only [String.data_append] at hd
  exact String.ext (List.append_cancel_right hd)

/-- Claim C4 counterexample: two vehicles with textually identical start
locations but different ids receive DIFFERENT node indices (0 and 1) in the
compiled problem — the location-identity key is the vehicle/job id
(`"<id>_start"`, `"job_<id>"`), not the lat/lng pair. -/
theorem claim_C4_counterexample :
    ({ id := "v1", startLocation := some (10, 20) } : VehicleR).startLocation
      = ({ id := "v2", startLocation := some (10, 20) } : VehicleR).startLocation
    ∧ lookupIdx (prepareLocations
        [{ id := "v1", startLocation := some (10, 20) },
         { id := "v2", startLocation := some (10, 20) }] []).1.2 ("v1" ++ "_start") = some 0
    ∧ lookupIdx (prepareLocations
        [{ id := "v1", startLocation := some (10, 20) },
         { id := "v2", startLocation := some (10, 20) }] []).1.2 ("v2" ++ "_start") = some 1 := by
  refine ⟨rfl, by decide, by decide⟩

theorem end_key_ne {a b : String} (h : a ≠ b) : a ++ "_end" ≠ b ++ "_end" := by
  intro he
  apply h
  have hd : (a ++ "_end").data = (b ++ "_end").data := by rw [he]
  simp only [String.data_append] at hd
  exact String.ext (List.append_cancel_right hd)

theorem job_key_ne {a b : String} (h : a ≠ b) : "job_" ++ a ≠ "job_" ++ b := by
  intro he
  apply h
  have hd : ("job_" ++ a).data = ("job_" ++ b).data := by rw [he]
  simp only [String.data_append] at hd
  exact String.ext (List.append_cancel_left hd)

theorem lookupIdx_addVehicleLocs_end_self (acc : List Loc × List (String × Nat))
    (v : VehicleR) (hc : (v.endLocation.isSome && v.endLocation != v.startLocation) = true) :
    (lookupIdx (addVehicleLocs acc v).2 (v.id ++ "_end")).isSome = true := by
  unfold addVehicleLocs
  simp only [hc, if_true]
  exact lookupIdx_addLocKey_self _ _ _

theorem lookupIdx_prepareLocations_end {vehicles : List VehicleR} (jobs : List JobR)
    {v : VehicleR} (hv : v ∈ vehicles)
    (hc : (v.endLocation.isSome && v.endLocation != v.startLocation) = true) :
    (lookupIdx (prepareLocations vehicles jobs).1.2 (v.id ++ "_end")).isSome = true := by
  obtain ⟨s, t, rfl⟩ := List.append_of_mem hv
  have hfold : (s ++ v :: t).foldl addVehicleLocs ([], []) =
      t.foldl addVehicleLocs (addVehicleLocs (s.foldl addVehicleLocs ([], [])) v) := by
    simp [List.foldl_append]
  obtain ⟨i, hi⟩ := Option.isSome_iff_exists.mp
    (lookupIdx_addVehicleLocs_end_self (s.foldl addVehicleLocs ([], [])) v hc)
  have h2 : lookupIdx ((s ++ v :: t).foldl addVehicleLocs ([], [])).2 (v.id ++ "_end")
      = some i := by
    rw [hfold]
    exact lookupIdx_foldVehicles_of_some hi
  have h3 : lookupIdx (prepareLocations (s ++ v :: t) jobs).1.2 (v.id ++ "_end") = some i := by
    unfold prepareLocations
    exact lookupIdx_foldJobs_of_some h2
  simp [h3]

theorem lookupIdx_addJobLoc_self
    (acc : (List Loc × List (String × Nat)) × List (String × Nat)) (j : JobR) :
    (lookupIdx (addJobLoc acc j).1.2 ("job_" ++ j.id)).isSome = true := by
  unfold addJobLoc
  exact lookupIdx_addLocKey_self _ _ _

theorem lookupIdx_prepareLocations_job (vehicles : List VehicleR) {jobs : List JobR}
    {j : JobR} (hj : j ∈ jobs) :
    (lookupIdx (prepareLocations vehicles jobs).1.2 ("job_" ++ j.id)).isSome = true := by
  obtain ⟨s, t, rfl⟩ := List.append_of_mem hj
  unfold prepareLocations
  have hfold : (s ++ j :: t).foldl addJobLoc (vehicles.foldl addVehicleLocs ([], []), []) =
      t.foldl addJobLoc
        (addJobLoc (s.foldl addJobLoc (vehicles.foldl addVehicleLocs ([], []), [])) j) := by
    simp [List.foldl_append]
  obtain ⟨i, hi⟩ := Option.isSome_iff_exists.mp
    (lookupIdx_addJobLoc_self (s.foldl addJobLoc (vehicles.foldl addVehicleLocs ([], []), [])) j)
  have h2 : lookupIdx
      ((s ++ j :: t).foldl addJobLoc (vehicles.foldl addVehicleLocs ([], []), [])).1.2
      ("job_" ++ j.id) = some i := by
    rw [hfold]
    exact lookupIdx_foldJobs_of_some hi
  simp only [h2, Option.isSome_some]

/-- Claim C4 amended: node indices are assigned zero-based in first-seen
order (the `location_to_idx` values, in insertion order, are exactly
`0 .. n-1` for the `n` collected locations), but the identity key is the
vehicle/job id (`"<id>_start"`, `"<id>_end"`, `"job_<id>"`), not the lat/lng
pair: any two vehicles with distinct ids are assigned distinct (and always
present) start-node indices, any two jobs with distinct ids are assigned
distinct (and always present) node indices, and any two vehicles with
distinct ids that both register a non-default end location are assigned
distinct end-node indices — all regardless of whether the locations are
textually identical. -/
theorem claim_C4_amended (vehicles : List VehicleR) (jobs : List JobR)
    (v1 v2 : VehicleR) (j1 j2 : JobR)
    (hv1 : v1 ∈ vehicles) (hv2 : v2 ∈ vehicles) (hvid : v1.id ≠ v2.id)
    (hj1 : j1 ∈ jobs) (hj2 : j2 ∈ jobs) (hjid : j1.id ≠ j2.id) :
    ((prepareLocations vehicles jobs).1.2).map Prod.snd
        = List.range (prepareLocations vehicles jobs).1.1.length
    ∧ ((lookupIdx (prepareLocations vehicles jobs).1.2 (v1.id ++ "_start")).isSome = true
      ∧ lookupIdx (prepareLocations vehicles jobs).1.2 (v1.id ++ "_start")
          ≠ lookupIdx (prepareLocations vehicles jobs).1.2 (v2.id ++ "_start"))
    ∧ ((lookupIdx (prepareLocations vehicles jobs).1.2 ("job_" ++ j1.id)).isSome = true
      ∧ lookupIdx (prepareLocations vehicles jobs).1.2 ("job_" ++ j1.id)
          ≠ lookupIdx (prepareLocations vehicles jobs).1.2 ("job_" ++ j2.id))
    ∧ ((v1.endLocation.isSome && v1.endLocation != v1.startLocation) = true →
        (v2.endLocation.isSome && v2.endLocation != v2.startLocation) = true →
        (lookupIdx (prepareLocations vehicles jobs).1.2 (v1.id ++ "_end")).isSome = true
        ∧ lookupIdx (prepareLocations vehicles jobs).1.2 (v1.id ++ "_end")
            ≠ lookupIdx (prepareLocations vehicles jobs).1.2 (v2.id ++ "_end")) := by
  have hinv : IdxInv (prepareLocations vehicles jobs).1 := idxInv_prepareLocations vehicles jobs
  have hnodup : ((prepareLocations vehicles jobs).1.2.map Prod.snd).Nodup := by
    rw [hinv]; exact List.nodup_range _
  obtain ⟨s1, hs1⟩ := Option.isSome_iff_exists.mp (lookupIdx_prepareLocations_start jobs hv1)
  obtain ⟨s2, hs2⟩ := Option.isSome_iff_exists.mp (lookupIdx_prepareLocations_start jobs hv2)
  obtain ⟨a1, ha1⟩ := Option.isSome_iff_exists.mp (lookupIdx_prepareLocations_job vehicles hj1)
  obtain ⟨a2, ha2⟩ := Option.isSome_iff_exists.mp (lookupIdx_prepareLocations_job vehicles hj2)
  refine ⟨hinv, ⟨by simp [hs1], ?_⟩, ⟨by simp [ha1], ?_⟩, ?_⟩
  · have hne := lookupIdx_ne_of_nodup hnodup (start_key_ne hvid) hs1 hs2
    rw [hs1, hs2]
    simp [hne]
  · have hne := lookupIdx_ne_of_nodup hnodup (job_key_ne hjid) ha1 ha2
    rw [ha1, ha2]
    simp [hne]
  · intro hc1 hc2
    obtain ⟨e1, he1⟩ := Option.isSome_iff_exists.mp
      (lookupIdx_prepareLocations_end jobs hv1 hc1)
    obtain ⟨e2, he2⟩ := Option.isSome_iff_exists.mp
      (lookupIdx_prepareLocations_end jobs hv2 hc2)
    have hne := lookupIdx_ne_of_nodup hnodup (end_key_ne hvid) he1 he2
    refine ⟨by simp [he1], ?_⟩
    rw [he1, he2]
    simp [hne]

/-- Witness fixtures for claim C4: two vehicles with textually identical
start locations AND identical non-default end locations but distinct ids,
and two jobs at that same location with distinct ids. -/
def vW1 : VehicleR := { id := "v1", startLocation := some (10, 20), endLocation := some (30, 40) }

/-- Second witness vehicle, same locations as `vW1`, different id. -/
def vW2 : VehicleR := { id := "v2", startLocation := some (10, 20), endLocation := some (30, 40) }

/-- First witness job at the shared location. -/
def jW1 : JobR := { id := "j1", location := some (10, 20) }

/-- Second witness job at the shared location, different id. -/
def jW2 : JobR := { id := "j2", location := some (10, 20) }

/-- Witness for the amended claim C4 at a concrete input, with the
end-location antecedents of the final conjunct also discharged concretely. -/
theorem claim_C4_amended_witness :
    (vW1 ∈ [vW1, vW2] ∧ vW2 ∈ [vW1, vW2] ∧ vW1.id ≠ vW2.id
      ∧ jW1 ∈ [jW1, jW2] ∧ jW2 ∈ [jW1, jW2] ∧ jW1.id ≠ jW2.id)
    ∧ (((prepareLocations [vW1, vW2] [jW1, jW2]).1.2).map Prod.snd
          = List.range (prepareLocations [vW1, vW2] [jW1, jW2]).1.1.length
      ∧ ((lookupIdx (prepareLocations [vW1, vW2] [jW1, jW2]).1.2 (vW1.id ++ "_start")).isSome
            = true
        ∧ lookupIdx (prepareLocations [vW1, vW2] [jW1, jW2]).1.2 (vW1.id ++ "_start")
            ≠ lookupIdx (prepareLocations [vW1, vW2] [jW1, jW2]).1.2 (vW2.id ++ "_start"))
      ∧ ((lookupIdx (prepareLocations [vW1, vW2] [jW1, jW2]).1.2 ("job_" ++ jW1.id)).isSome
            = true
        ∧ lookupIdx (prepareLocations [vW1, vW2] [jW1, jW2]).1.2 ("job_" ++ jW1.id)
            ≠ lookupIdx (prepareLocations [vW1, vW2] [jW1, jW2]).1.2 ("job_" ++ jW2.id))
      ∧ ((vW1.endLocation.isSome && vW1.endLocation != vW1.startLocation) = true →
          (vW2.endLocation.isSome && vW2.endLocation != vW2.startLocation) = true →
          (lookupIdx (prepareLocations [vW1, vW2] [jW1, jW2]).1.2 (vW1.id ++ "_end")).isSome
              = true
          ∧ lookupIdx (prepareLocations [vW1, vW2] [jW1, jW2]).1.2 (vW1.id ++ "_end")
              ≠ lookupIdx (prepareLocations [vW1, vW2] [jW1, jW2]).1.2 (vW2.id ++ "_end")))
    ∧ ((vW1.endLocation.isSome && vW1.endLocation != vW1.startLocation) = true
      ∧ (vW2.endLocation.isSome && vW2.endLocation != vW2.startLocation) = true
      ∧ (lookupIdx (prepareLocations [vW1, vW2] [jW1, jW2]).1.2 (vW1.id ++ "_end")).isSome
          = true
      ∧ lookupIdx (prepareLocations [vW1, vW2] [jW1, jW2]).1.2 (vW1.id ++ "_end")
          ≠ lookupIdx (prepareLocations [vW1, vW2] [jW1, jW2]).1.2 (vW2.id ++ "_end")) :=
  ⟨⟨by decide, by decide, by decide, by decide, by decide, by decide⟩,
    claim_C4_amended [vW1, vW2] [jW1, jW2] vW1 vW2 jW1 jW2
      (by decide) (by decide) (by decide) (by decide) (by decide) (by decide),
    by decide, by decide, by decide, by decide⟩

-- Lemmas about `_format_solution` totals

/-- Specification function: the sum of matrix entries over the consecutive
node pairs of a visit path (every arc of the route, including the arcs into
depot/end nodes). -/
def arcSum (m : List (List Int)) (path : List Nat) : Int :=
  ((path.zip path.tail).map (fun q => matGet m q.1 q.2)).sum

@[simp] theorem arcSum_nil (m : List (List Int)) : arcSum m [] = 0 := rfl

@[simp] theorem arcSum_single (m : List (List Int)) (x : Nat) : arcSum m [x] = 0 := rfl

@[simp] theorem arcSum_cons₂ (m : List (List Int)) (x y : Nat) (rest : List Nat) :
    arcSum m (x :: y :: rest) = matGet m x y + arcSum m (y :: rest) := by
  simp [arcSum]

theorem walkStops_totals (dist dur : List (List Int)) (nd : Nat) (jobs : List JobC) :
    ∀ (path : List Nat) (prev : Nat) (rd rt : Int),
      (walkStops dist dur nd jobs prev rd rt path).2.1 = rd + arcSum dist path
      ∧ (walkStops dist dur nd jobs prev rd rt path).2.2 = rt + arcSum dur path := by
  intro path
  induction path with
  | nil => intro prev rd rt; simp [walkStops]
  | cons x xs ih =>
    intro prev rd rt
    cases xs with
    | nil => simp [walkStops]
    | cons y rest =>
      have h := ih x (rd + matGet dist x y) (rt + matGet dur x y)
      simp only [walkStops, arcSum_cons₂]
      constructor
      · rw [(h).1]; ring
      · rw [(h).2]; ring

theorem foldl_add_dist (l : List RouteM) (a : Int) :
    l.foldl (fun acc r => acc + r.totalDistance) a = a + (l.map (fun r => r.totalDistance)).sum := by
  induction l generalizing a with
  | nil => simp
  | cons r rs ih => simp [ih]; ring

theorem foldl_add_dur (l : List RouteM) (a : Int) :
    l.foldl (fun acc r => acc + r.totalDuration) a = a + (l.map (fun r => r.totalDuration)).sum := by
  induction l generalizing a with
  | nil => simp
  | cons r rs ih => simp [ih]; ring

/-- Claim C5 counterexample: a concrete successful optimization (one vehicle,
one job, solver path depot -> job -> depot) whose route total distance (3000,
including the final return arc into the depot) differs from the sum of the
stops' `distance_from_prev` values (1000 — the return arc has no stop
record), refuting the per-route half of the claim. -/
theorem claim_C5_counterexample :
    ((optimizeRoutes [jFix] "duration" (some [vFix]) "car" stEmpty (.ok mFix) solFix).1.map
        (fun s => s.status)) = .ok "success"
    ∧ ((optimizeRoutes [jFix] "duration" (some [vFix]) "car" stEmpty (.ok mFix) solFix).1.map
        (fun s => s.routes.map (fun r => r.totalDistance))) = .ok [3000]
    ∧ ((optimizeRoutes [jFix] "duration" (some [vFix]) "car" stEmpty (.ok mFix) solFix).1.map
        (fun s => s.routes.map (fun r => (r.stops.map (fun stp => stp.distanceFromPrev)).sum)))
        = .ok [1000]
    ∧ (3000 : Int) ≠ 1000 := by
  refine ⟨by decide, by decide, by decide, by decide⟩

/-- Claim C5 amended: in every `_format_solution` output, the grand total
distance and duration are the exact sums of the per-route totals; each
route's total distance (resp. duration) is the sum of the matrix entries over
ALL consecutive arcs of that vehicle's visit path (`arcSum`), which exceeds
the sum of the stops' `distance_from_prev` values by the arcs that have no
stop record (in particular the final arc into the vehicle's end node). -/
theorem claim_C5_amended (dist dur : List (List Int)) (ot : String)
    (vehicles : List VehicleC) (jobs : List JobC) (paths : List (List Nat)) :
    (formatSolution dist dur ot vehicles jobs paths).totalDistance
        = ((formatSolution dist dur ot vehicles jobs paths).routes.map
            (fun r => r.totalDistance)).sum
    ∧ (formatSolution dist dur ot vehicles jobs paths).totalDuration
        = ((formatSolution dist dur ot vehicles jobs paths).routes.map
            (fun r => r.totalDuration)).sum
    ∧ (formatSolution dist dur ot vehicles jobs paths).routes.map (fun r => r.totalDistance)
        = (vehicles.zip paths).map (fun vp => arcSum dist vp.2)
    ∧ (formatSolution dist dur ot vehicles jobs paths).routes.map (fun r => r.totalDuration)
        = (vehicles.zip paths).map (fun vp => arcSum dur vp.2) := by
  refine ⟨?_, ?_, ?_, ?_⟩
  · simp only [formatSolution]
    rw [foldl_add_dist]
    ring
  · simp only [formatSolution]
    rw [foldl_add_dur]
    ring
  · simp only [formatSolution, List.map_map]
    apply List.map_congr_left
    intro vp _
    simp only [Function.comp_apply, walkRoute]
    have h := (walkStops_totals dist dur vehicles.length jobs vp.2 (vp.2.headD 0) 0 0).1
    simpa using h
  · simp only [formatSolution, List.map_map]
    apply List.map_congr_left
    intro vp _
    simp only [Function.comp_apply, walkRoute]
    have h := (walkStops_totals dist dur vehicles.length jobs vp.2 (vp.2.headD 0) 0 0).2
    simpa using h

-- Claim C6: cache hit/miss behaviour of `_get_matrices`

theorem getCacheKey_ne {L Lp : List Loc} (p : String) (h : Lp ≠ L) :
    getCacheKey Lp p ≠ getCacheKey L p := by
  intro he
  exact h (congrArg Prod.snd he)

theorem lookupEntry_after_ok {st st1 : CacheState} {L : List Loc} {p : String}
    {pr0 : ProviderOutcome} {m0 : Matrices}
    (hfirst : getMatrices st L p false pr0 = (.ok m0, st1)) :
    lookupEntry st1.entries (getCacheKey L p) = some m0
    ∧ ∀ k, k ≠ getCacheKey L p → lookupEntry st.entries k = none →
        lookupEntry st1.entries k = none := by
  rcases hl : lookupEntry st.entries (getCacheKey L p) with _ | m
  · -- first call was a miss; the provider must have answered
    cases pr0 with
    | ok m =>
      simp only [getMatrices, hl] at hfirst
      obtain ⟨hm, hst⟩ := Prod.mk.injEq .. ▸ hfirst
      have hm0 : m = m0 := by simpa using hm
      subst hm0
      have hins : insertEntry st.entries (getCacheKey L p) m = st.entries ++ [(getCacheKey L p, m)] :=
        insertEntry_of_none hl m
      have hentries : st1.entries =
          if (st.entries ++ [(getCacheKey L p, m)]).length > 1000 then
            (st.entries ++ [(getCacheKey L p, m)]).tail
          else st.entries ++ [(getCacheKey L p, m)] := by
        rw [← hins, ← hst]
      constructor
      · rw [hentries]
        by_cases hlen : (st.entries ++ [(getCacheKey L p, m)]).length > 1000
        · simp only [hlen, if_true]
          cases hst0 : st.entries with
          | nil => simp [hst0] at hlen
          | cons e rest =>
            have htail : lookupEntry rest (getCacheKey L p) = none := by
              have := lookupEntry_tail_of_none hl
              simpa [hst0] using this
            simp only [hst0, List.cons_append, List.tail_cons]
            rw [lookupEntry_append_of_none htail]
            simp
        · simp only [hlen, if_false]
          rw [lookupEntry_append_of_none hl]
          simp
      · intro k hk hnone
        rw [hentries]
        have happ : lookupEntry (st.entries ++ [(getCacheKey L p, m)]) k = none := by
          rw [lookupEntry_append_of_none hnone]
          simp [Ne.symm hk]
        by_cases hlen : (st.entries ++ [(getCacheKey L p, m)]).length > 1000
        · simp only [hlen, if_true]
          exact lookupEntry_tail_of_none happ
        · rw [if_neg hlen]
          exact happ
    | ghError e => simp [getMatrices, hl] at hfirst
    | exn e => simp [getMatrices, hl] at hfirst
  · -- first call was a hit
    simp only [getMatrices, hl] at hfirst
    obtain ⟨hm, hst⟩ := Prod.mk.injEq .. ▸ hfirst
    have hm0 : m = m0 := by simpa using hm
    subst hm0
    have hentries : st1.entries = st.entries := by rw [← hst]
    exact ⟨hentries ▸ hl, fun k _ hnone => hentries ▸ hnone⟩

/-- Claim C6: after a completed `_get_matrices` call for `(L, p)`, issuing the
same request again without force-refresh is a pure cache hit — for EVERY
provider oracle the call returns the stored pair with the hit counter
incremented and everything else (entries, miss counter) unchanged, so the
external provider is not contacted — and a request whose location list
differs (at the 6-decimal key precision of the embedding) and is not yet
cached is a miss: it increments the miss counter and leaves the hit counter
unchanged. -/
theorem claim_C6_cache (st st1 : CacheState) (L Lp : List Loc) (p : String)
    (pr0 : ProviderOutcome) (m0 : Matrices)
    (hfirst : getMatrices st L p false pr0 = (.ok m0, st1))
    (habsent : lookupEntry st.entries (getCacheKey Lp p) = none)
    (hne : Lp ≠ L) :
    (∀ pr, getMatrices st1 L p false pr = (.ok m0, { st1 with hits := st1.hits + 1 }))
    ∧ (∀ pr,
        (getMatrices { st1 with hits := st1.hits + 1 } Lp p false pr).2.misses
            = st1.misses + 1
        ∧ (getMatrices { st1 with hits := st1.hits + 1 } Lp p false pr).2.hits
            = st1.hits + 1) := by
  obtain ⟨hsome, hnone⟩ := lookupEntry_after_ok hfirst
  have habsent1 : lookupEntry st1.entries (getCacheKey Lp p) = none :=
    hnone _ (getCacheKey_ne p hne) habsent
  constructor
  · intro pr
    simp [getMatrices, hsome]
  · intro pr
    cases pr with
    | ok m => simp [getMatrices, habsent1]
    | ghError e => simp [getMatrices, habsent1]
    | exn e => simp [getMatrices, habsent1]

/-- Witness for claim C6 at a concrete input: empty cache, first request for
one location, identical second request, and a third request for a different
location. -/
theorem claim_C6_witness :
    (getMatrices stEmpty [(0, 0)] "car" false (.ok mFix)
        = (.ok mFix, { entries := [(getCacheKey [(0, 0)] "car", mFix)], hits := 0, misses := 1 })
      ∧ lookupEntry stEmpty.entries (getCacheKey [(1000000, 2000000)] "car") = none
      ∧ ([((1000000 : Int), (2000000 : Int))] : List Loc) ≠ [(0, 0)])
    ∧ ((∀ pr, getMatrices { entries := [(getCacheKey [(0, 0)] "car", mFix)], hits := 0, misses := 1 }
          [(0, 0)] "car" false pr
          = (.ok mFix, { entries := [(getCacheKey [(0, 0)] "car", mFix)], hits := 1, misses := 1 }))
      ∧ (∀ pr,
          (getMatrices { entries := [(getCacheKey [(0, 0)] "car", mFix)], hits := 1, misses := 1 }
              [(1000000, 2000000)] "car" false pr).2.misses = 2
          ∧ (getMatrices { entries := [(getCacheKey [(0, 0)] "car", mFix)], hits := 1, misses := 1 }
              [(1000000, 2000000)] "car" false pr).2.hits = 1)) :=
  ⟨⟨by decide, by decide, by decide⟩,
    claim_C6_cache stEmpty
      { entries := [(getCacheKey [(0, 0)] "car", mFix)], hits := 0, misses := 1 }
      [(0, 0)] [(1000000, 2000000)] "car" (.ok mFix) mFix
      (by decide) (by decide) (by decide)⟩

-- Claim C9: cache size bound and insertion-order eviction

theorem insertEntry_length_le (l : List (CacheKey × Matrices)) (k : CacheKey) (v : Matrices) :
    (insertEntry l k v).length ≤ l.length + 1 := by
  induction l with
  | nil => simp
  | cons hd tl ih =>
    obtain ⟨k0, v0⟩ := hd
    by_cases hk : k0 = k
    · simp [hk]
    · simp only [insertEntry_cons, hk, if_false, List.length_cons]
      omega

/-- Claim C9: (1) the cache never holds more than 1000 entries after a
matrix fetch completes (from any state within the bound, for any
force-refresh flag and provider outcome); (2) when an insertion would make
the count exceed the bound (a fresh key inserted into a full cache), exactly
one entry is evicted and it is the oldest-inserted one: the new entry list is
the old list minus its head, with the new entry appended. -/
theorem claim_C9_bound_eviction :
    (∀ (st : CacheState) (L : List Loc) (p : String) (f : Bool) (pr : ProviderOutcome),
        st.entries.length ≤ 1000 → ((getMatrices st L p f pr).2).entries.length ≤ 1000)
    ∧ (∀ (st : CacheState) (L : List Loc) (p : String) (m : Matrices),
        st.entries.length = 1000 → lookupEntry st.entries (getCacheKey L p) = none →
        ((getMatrices st L p false (.ok m)).2).entries
            = st.entries.tail ++ [(getCacheKey L p, m)]
        ∧ ((getMatrices st L p false (.ok m)).2).entries.length = 1000) := by
  have hmiss_ok : ∀ (st : CacheState) (L : List Loc) (p : String) (m : Matrices),
      st.entries.length ≤ 1000 →
      (let entries1 := insertEntry st.entries (getCacheKey L p) m
       (if entries1.length > 1000 then entries1.tail else entries1).length ≤ 1000) := by
    intro st L p m hle
    have hb := insertEntry_length_le st.entries (getCacheKey L p) m
    by_cases hgt : (insertEntry st.entries (getCacheKey L p) m).length > 1000
    · simp only [hgt, if_true, List.length_tail]
      omega
    · simp only [hgt, if_false]
      omega
  constructor
  · intro st L p f pr hle
    rcases hl : lookupEntry st.entries (getCacheKey L p) with _ | m0
    · cases f <;> cases pr with
      | ok m => simpa only [getMatrices, hl] using hmiss_ok st L p m hle
      | ghError e => simpa only [getMatrices, hl] using hle
      | exn e => simpa only [getMatrices, hl] using hle
    · cases f with
      | false =>
        cases pr <;> simpa only [getMatrices, hl] using hle
      | true =>
        cases pr with
        | ok m => simpa only [getMatrices, hl] using hmiss_ok st L p m hle
        | ghError e => simpa only [getMatrices, hl] using hle
        | exn e => simpa only [getMatrices, hl] using hle
  · intro st L p m hlen hl
    have hins : insertEntry st.entries (getCacheKey L p) m
        = st.entries ++ [(getCacheKey L p, m)] := insertEntry_of_none hl m
    have hlen1 : (insertEntry st.entries (getCacheKey L p) m).length = 1001 := by
      rw [hins]; simp [hlen]
    have hgt : (insertEntry st.entries (getCacheKey L p) m).length > 1000 := by omega
    obtain ⟨e, rest, hse⟩ : ∃ e rest, st.entries = e :: rest := by
      cases hse : st.entries with
      | nil => rw [hse] at hlen; simp at hlen
      | cons e rest => exact ⟨e, rest, rfl⟩
    have htail : (insertEntry st.entries (getCacheKey L p) m).tail
        = st.entries.tail ++ [(getCacheKey L p, m)] := by
      rw [hins, hse]
      simp
    constructor
    · simp only [getMatrices, hl, hgt, if_true]
      exact htail
    · simp only [getMatrices, hl, hgt, if_true]
      rw [htail, hse]
      rw [hse] at hlen
      simp only [List.tail_cons, List.length_append, List.length_cons, List.length_nil]
        at hlen ⊢
      omega

/-- Concrete 1000-entry cache for the eviction witness. -/
def witnessEntries : Nat → List (CacheKey × Matrices)
  | 0 => []
  | n + 1 => (("p", [((n : Int), 0)]), mFix) :: witnessEntries n

theorem witnessEntries_length (n : Nat) : (witnessEntries n).length = n := by
  induction n with
  | zero => rfl
  | succ k ih => simp [witnessEntries, ih]

theorem witnessEntries_lookup (n : Nat) (k : CacheKey) (h : k.1 ≠ "p") :
    lookupEntry (witnessEntries n) k = none := by
  induction n with
  | zero => rfl
  | succ j ih =>
    simp only [witnessEntries, lookupEntry_cons]
    rw [if_neg, ih]
    intro he
    exact h (congrArg Prod.fst he).symm

/-- The full 1000-entry cache state used by the C9 witness. -/
def stBig : CacheState := { entries := witnessEntries 1000, hits := 0, misses := 0 }

/-- Witness for claim C9: the bound applied from the empty state, and the
eviction equation applied to a full 1000-entry cache receiving a fresh key. -/
theorem claim_C9_witness :
    (stEmpty.entries.length ≤ 1000
      ∧ stBig.entries.length = 1000
      ∧ lookupEntry stBig.entries (getCacheKey [(5, 5)] "car") = none)
    ∧ ((getMatrices stEmpty [(0, 0)] "car" false (.ok mFix)).2.entries.length ≤ 1000
      ∧ ((getMatrices stBig [(5, 5)] "car" false (.ok mFix)).2.entries
            = stBig.entries.tail ++ [(getCacheKey [(5, 5)] "car", mFix)]
        ∧ (getMatrices stBig [(5, 5)] "car" false (.ok mFix)).2.entries.length = 1000)) :=
  ⟨⟨by decide, witnessEntries_length 1000,
      witnessEntries_lookup 1000 (getCacheKey [(5, 5)] "car") (by decide)⟩,
    claim_C9_bound_eviction.1 stEmpty [(0, 0)] "car" false (.ok mFix) (by decide),
    claim_C9_bound_eviction.2 stBig [(5, 5)] "car" mFix (witnessEntries_length 1000)
      (witnessEntries_lookup 1000 (getCacheKey [(5, 5)] "car") (by decide))⟩

-- Claim C7: schedule generation

theorem contains_workdays (m : Nat) : ([0, 1, 2, 3, 4].contains m) = decide (m < 5) := by
  rcases Nat.lt_or_ge m 5 with h | h
  · have : m = 0 ∨ m = 1 ∨ m = 2 ∨ m = 3 ∨ m = 4 := by omega
    rcases this with rfl | rfl | rfl | rfl | rfl <;> rfl
  · have h0 : m ≠ 0 := by omega
    have h1 : m ≠ 1 := by omega
    have h2 : m ≠ 2 := by omega
    have h3 : m ≠ 3 := by omega
    have h4 : m ≠ 4 := by omega
    have h5 : ¬(m < 5) := by omega
    simp [List.contains, h0, h1, h2, h3, h4, h5]

theorem weekFilterLength (s : Nat) :
    (((List.range 7).map (fun i => s + i)).filter
        (fun d => [0, 1, 2, 3, 4].contains (d % 7))).length = 5 := by
  have h7 : List.range 7 = [0, 1, 2, 3, 4, 5, 6] := rfl
  rw [h7, ← List.countP_eq_length_filter]
  have e0 : (s + 0) % 7 = (s % 7 + 0) % 7 := by omega
  have e1 : (s + 1) % 7 = (s % 7 + 1) % 7 := by omega
  have e2 : (s + 2) % 7 = (s % 7 + 2) % 7 := by omega
  have e3 : (s + 3) % 7 = (s % 7 + 3) % 7 := by omega
  have e4 : (s + 4) % 7 = (s % 7 + 4) % 7 := by omega
  have e5 : (s + 5) % 7 = (s % 7 + 5) % 7 := by omega
  have e6 : (s + 6) % 7 = (s % 7 + 6) % 7 := by omega
  simp only [List.map_cons, List.map_nil, List.countP_cons, List.countP_nil,
    e0, e1, e2, e3, e4, e5, e6]
  have hr : s % 7 < 7 := Nat.mod_lt _ (by omega)
  generalize s % 7 = r at *
  interval_cases r <;> decide

/-- Claim C7: with a planning horizon spanning exactly 7 consecutive days and
working days Monday-Friday, the schedule generator emits exactly 5 schedules
per vehicle, each dated on a weekday in 0..4; with no planning horizon it
emits exactly one schedule per vehicle, dated today with the default
09:00-17:00 working hours (in seconds since midnight). -/
theorem claim_C7_schedules (vehicles : List VehicleR) (ph : PlanningHorizonM)
    (today s : Nat) (hs : ph.startDate = s) (he : ph.endDate = s + 6)
    (hw : ph.workingDays = [0, 1, 2, 3, 4]) :
    (∀ entry ∈ generateVehicleSchedules vehicles (some ph) today,
        entry.2.length = 5 ∧ ∀ sch ∈ entry.2, sch.date % 7 < 5)
    ∧ ∀ (vehicles2 : List VehicleR) (today2 : Nat),
        ∀ entry ∈ generateVehicleSchedules vehicles2 none today2,
          entry.2.length = 1 ∧ ∀ sch ∈ entry.2,
            sch.date = today2 ∧ sch.startTime = 9 * 3600 ∧ sch.endTime = 17 * 3600 := by
  have hdates : horizonDates ph.startDate ph.endDate = (List.range 7).map (fun i => s + i) := by
    rw [hs, he]
    unfold horizonDates
    have h71 : s + 6 + 1 - s = 7 := by omega
    rw [h71]
  constructor
  · intro entry hentry
    obtain ⟨v, hv, rfl⟩ := List.mem_map.mp hentry
    constructor
    · show (schedulesForVehicle v (some ph) today).length = 5
      simp only [schedulesForVehicle, hdates, hw, List.length_map]
      exact weekFilterLength s
    · intro sch hsch
      simp only [schedulesForVehicle, hdates, hw] at hsch
      obtain ⟨d, hd, rfl⟩ := List.mem_map.mp hsch
      have hpred := List.of_mem_filter hd
      have hlt := contains_workdays (d % 7) ▸ hpred
      exact of_decide_eq_true hlt
  · intro vehicles2 today2 entry hentry
    obtain ⟨v, hv, rfl⟩ := List.mem_map.mp hentry
    refine ⟨rfl, ?_⟩
    intro sch hsch
    simp only [schedulesForVehicle, List.mem_singleton] at hsch
    subst hsch
    exact ⟨rfl, rfl, rfl⟩

/-- A concrete 7-day Monday-Friday planning horizon (day 3 to day 9 in the
Monday-epoch day numbering). -/
def phFix : PlanningHorizonM :=
  { startDate := 3, endDate := 9, workingDays := [0, 1, 2, 3, 4] }

/-- Witness for claim C7 at a concrete input. -/
theorem claim_C7_witness :
    (phFix.startDate = 3 ∧ phFix.endDate = 3 + 6 ∧ phFix.workingDays = [0, 1, 2, 3, 4])
    ∧ ((∀ entry ∈ generateVehicleSchedules [vRFix] (some phFix) 0,
          entry.2.length = 5 ∧ ∀ sch ∈ entry.2, sch.date % 7 < 5)
      ∧ ∀ (vehicles2 : List VehicleR) (today2 : Nat),
          ∀ entry ∈ generateVehicleSchedules vehicles2 none today2,
            entry.2.length = 1 ∧ ∀ sch ∈ entry.2,
              sch.date = today2 ∧ sch.startTime = 9 * 3600 ∧ sch.endTime = 17 * 3600) :=
  ⟨⟨rfl, rfl, rfl⟩,
    claim_C7_schedules [vRFix] phFix 0 3 rfl rfl rfl⟩

/-- Claim C10: at the request boundary, any `OptimizationRequest` with an
empty jobs list is rejected by schema validation with the message
"At least one job must be provided" (and FastAPI answers before the handler
body runs, so the optimizer is never called: `handleOptimize` returns the
validation errors instead of an optimizer result); an empty vehicles list
likewise produces "At least one vehicle must be provided". -/
theorem claim_C10_request_validation (r : OptimizationRequestM) (profile : String)
    (st : CacheState) (provider : ProviderOutcome) (solver : SolverOutcome)
    (hjobs : r.jobs = []) :
    "At least one job must be provided" ∈ requestValidationErrors r
    ∧ (∃ es, handleOptimize r profile st provider solver = .error es
        ∧ "At least one job must be provided" ∈ es)
    ∧ ∀ r2 : OptimizationRequestM, r2.vehicles = [] →
        "At least one vehicle must be provided" ∈ requestValidationErrors r2 := by
  refine ⟨?_, ?_, ?_⟩
  · simp [requestValidationErrors, validateVehiclesField, validateJobsField, hjobs]
  · by_cases hveh : r.vehicles.isEmpty
    · have herr : requestValidationErrors r
          = ["At least one vehicle must be provided", "At least one job must be provided"] := by
        simp [requestValidationErrors, validateVehiclesField, validateJobsField, hjobs, hveh]
      refine ⟨["At least one vehicle must be provided", "At least one job must be provided"],
        ?_, ?_⟩
      · simp only [handleOptimize, herr]
      · simp
    · have herr : requestValidationErrors r = ["At least one job must be provided"] := by
        simp [requestValidationErrors, validateVehiclesField, validateJobsField, hjobs, hveh]
      refine ⟨["At least one job must be provided"], ?_, ?_⟩
      · simp only [handleOptimize, herr]
      · simp
  · intro r2 h2
    simp [requestValidationErrors, validateVehiclesField, h2]

/-- Witness for claim C10 at a concrete zero-job request. -/
theorem claim_C10_witness :
    ({ vehicles := [vRFix], jobs := [] } : OptimizationRequestM).jobs = []
    ∧ ("At least one job must be provided"
        ∈ requestValidationErrors { vehicles := [vRFix], jobs := [] }
      ∧ (∃ es, handleOptimize { vehicles := [vRFix], jobs := [] } "car" stEmpty (.ok mFix) solFix
            = .error es
          ∧ "At least one job must be provided" ∈ es)
      ∧ ∀ r2 : OptimizationRequestM, r2.vehicles = [] →
          "At least one vehicle must be provided" ∈ requestValidationErrors r2) :=
  ⟨rfl, claim_C10_request_validation { vehicles := [vRFix], jobs := [] } "car" stEmpty
    (.ok mFix) solFix rfl⟩
